import Mathlib

/-!
Verification of the recording/transcription coordination engine of
speak.py (a voice-to-text daemon).  The definitions below are a shallow
embedding of the source: each is annotated with the line numbers of the
code it translates.  Audio samples are modelled as integers (their values
never matter to the properties checked); an audio chunk delivered by the
device callback is a list of samples; the buffer is a list of chunks.
Side effects (beeps played, transcription workers spawned) are recorded
in instrumentation fields so that theorems can talk about them.
-/

namespace Speak

/-- SAMPLE_RATE = 16000 (speak.py line 26). -/
def SAMPLE_RATE : Nat := 16000

/-- The minimum-length cut-off in samples.  The source (line 323) compares
len(audio) < SAMPLE_RATE * MIN_RECORDING_DURATION with
MIN_RECORDING_DURATION = 0.3 (line 38); 16000 * 0.3 evaluates to exactly
4800.0 in IEEE-754 double precision, so the comparison is len(audio) < 4800. -/
def MIN_RECORDING_SAMPLES : Nat := 4800

/-- KEYCODE_R = 15, the push-to-talk chord key (speak.py line 30). -/
def KEYCODE_R : Nat := 15

/-- KEYCODE_T = 17, the toggle chord key (speak.py line 31). -/
def KEYCODE_T : Nat := 17

/-- Kinds of feedback beep (play_beep, speak.py lines 65-84). -/
inductive Cue where
  | start
  | stop
  | done
deriving DecidableEq, Repr

/-- An audio chunk: the samples delivered by one device callback. -/
abbrev Chunk := List Int

/-- The mutable state of SpeakDaemon (speak.py lines 209-228) relevant to
the recording state machine, plus instrumentation: cues records the
play_beep calls issued, submissions records the clips for which a
transcription worker thread was spawned (speak.py line 333). -/
structure SpeakDaemon where
  is_recording : Bool
  audio_buffer : List Chunk
  stream_open : Bool
  toggle_mode_active : Bool
  push_to_talk_held : Bool
  cues : List Cue
  submissions : List (List Int)
deriving DecidableEq, Repr

/-- The initial daemon state (speak.py lines 217-224). -/
def initDaemon : SpeakDaemon :=
  { is_recording := false
    audio_buffer := []
    stream_open := false
    toggle_mode_active := false
    push_to_talk_held := false
    cues := []
    submissions := [] }

/-- Recording modes of the abstract state machine of the spec. -/
inductive Mode where
  | pushToTalk
  | toggle
deriving DecidableEq, Repr

/-- The abstract RecordingState of the spec: Idle or Recording(mode). -/
inductive RecState where
  | idle
  | recording (m : Mode)
deriving DecidableEq, Repr

/-- Map the concrete daemon state to the abstract RecordingState:
recording in toggle mode when toggle_mode_active is set, otherwise
recording in push-to-talk mode. -/
def abstractState (s : SpeakDaemon) : RecState :=
  if s.is_recording then
    (if s.toggle_mode_active then RecState.recording Mode.toggle
     else RecState.recording Mode.pushToTalk)
  else RecState.idle

/-- SpeakDaemon._audio_callback (speak.py lines 244-250), sequential view:
append the chunk iff is_recording is set.  (The lock granularity of the
source, where the flag check happens outside the lock, is modelled
separately by the race semantics below.) -/
def audio_callback (chunk : Chunk) (s : SpeakDaemon) : SpeakDaemon :=
  if s.is_recording then { s with audio_buffer := s.audio_buffer ++ [chunk] }
  else s

/-- SpeakDaemon.start_recording (speak.py lines 252-269): early return if
already recording; otherwise clear the buffer, set the flag, open the
stream and play the start cue. -/
def start_recording (s : SpeakDaemon) : SpeakDaemon :=
  if s.is_recording then s
  else
    { s with
      audio_buffer := []
      is_recording := true
      stream_open := true
      cues := s.cues ++ [Cue.start] }

/-- SpeakDaemon.stop_recording (speak.py lines 271-291): early return none
if not recording; otherwise clear the flag, close the stream, play the
stop cue, then under the lock return none if the buffer is empty, else
the concatenation of all chunks, clearing the buffer. -/
def stop_recording (s : SpeakDaemon) : SpeakDaemon × Option (List Int) :=
  if s.is_recording then
    let s1 : SpeakDaemon :=
      { s with
        is_recording := false
        stream_open := false
        cues := s.cues ++ [Cue.stop] }
    if s1.audio_buffer = [] then (s1, none)
    else ({ s1 with audio_buffer := [] }, some s1.audio_buffer.flatten)
  else (s, none)

/-- SpeakDaemon.process_recording (speak.py lines 318-333): stop recording;
drop the clip when there is none or it is shorter than the minimum; else
spawn a transcription worker for it (recorded as a submission). -/
def process_recording (s : SpeakDaemon) : SpeakDaemon :=
  let p := stop_recording s
  match p.2 with
  | none => p.1
  | some audio =>
    if audio.length < MIN_RECORDING_SAMPLES then p.1
    else { p.1 with submissions := p.1.submissions ++ [audio] }

/-- SpeakDaemon._handle_push_to_talk_down (speak.py lines 335-339). -/
def handle_push_to_talk_down (s : SpeakDaemon) : SpeakDaemon :=
  if s.toggle_mode_active = false ∧ s.push_to_talk_held = false then
    start_recording { s with push_to_talk_held := true }
  else s

/-- SpeakDaemon._handle_push_to_talk_up (speak.py lines 341-346). -/
def handle_push_to_talk_up (s : SpeakDaemon) : SpeakDaemon :=
  if s.push_to_talk_held then
    let s1 := { s with push_to_talk_held := false }
    if s1.is_recording ∧ s1.toggle_mode_active = false then process_recording s1
    else s1
  else s

/-- SpeakDaemon._handle_toggle (speak.py lines 348-355). -/
def handle_toggle (s : SpeakDaemon) : SpeakDaemon :=
  if s.toggle_mode_active then
    process_recording { s with toggle_mode_active := false }
  else
    start_recording { s with toggle_mode_active := true }

/-- A push-to-talk hotkey event delivered to the state machine. -/
inductive PttEvent where
  | down
  | up
deriving DecidableEq, Repr

/-- Dispatch one push-to-talk event to its handler. -/
def applyPtt (s : SpeakDaemon) (e : PttEvent) : SpeakDaemon :=
  match e with
  | PttEvent.down => handle_push_to_talk_down s
  | PttEvent.up => handle_push_to_talk_up s

/-- Dispatch a sequence of push-to-talk events. -/
def applyPttList (s : SpeakDaemon) (es : List PttEvent) : SpeakDaemon :=
  es.foldl applyPtt s

end Speak

namespace Speak

/-! Embedding of the Quartz event-tap callback (speak.py lines 95-143). -/

/-- The event types the callback discriminates on. -/
inductive CGEventType where
  | keyDown
  | keyUp
  | tapDisabledByTimeout
  | tapDisabledByUserInput
  | other
deriving DecidableEq, Repr

/-- A raw Quartz event as seen by the callback: its type, keycode,
whether the Option modifier is held (flags mask test, line 121), and the
autorepeat field (line 127). -/
structure CGEvent where
  event_type : CGEventType
  keycode : Nat
  option_down : Bool
  is_repeat : Bool
deriving DecidableEq, Repr

/-- The semantic actions the callback dispatches to worker threads. -/
inductive HandlerAction where
  | pushToTalkDown
  | pushToTalkUp
  | toggle
deriving DecidableEq, Repr

/-- Whether the raw event is returned for propagation or suppressed
(return event vs return None in the source). -/
inductive TapDecision where
  | passEvent
  | suppressEvent
deriving DecidableEq, Repr

/-- The observable outcome of one callback invocation: the propagation
decision, whether CGEventTapEnable was called to re-enable the tap, and
the handler actions dispatched (threads spawned). -/
structure TapOutcome where
  decision : TapDecision
  reenabled : Bool
  dispatched : List HandlerAction
deriving DecidableEq, Repr

/-- _event_tap_callback (speak.py lines 95-143).  daemon_up models the
global _daemon being set (line 99); tap_installed models the global
_event_tap being non-null (line 105).  Branch order follows the source:
disabled-by-timeout re-enables (only when the tap object exists) and
passes the event; disabled-by-user-input passes the event with no
re-enable; non-key events pass; events without Option pass; chord keys
are always suppressed, dispatching only on a first (non-repeat) key-down
or, for the push-to-talk chord, on any key-up. -/
def event_tap_callback (daemon_up tap_installed : Bool) (e : CGEvent) :
    TapOutcome :=
  if daemon_up = false then ⟨TapDecision.passEvent, false, []⟩
  else if e.event_type = CGEventType.tapDisabledByTimeout then
    ⟨TapDecision.passEvent, tap_installed, []⟩
  else if e.event_type = CGEventType.tapDisabledByUserInput then
    ⟨TapDecision.passEvent, false, []⟩
  else if e.event_type ≠ CGEventType.keyDown ∧ e.event_type ≠ CGEventType.keyUp then
    ⟨TapDecision.passEvent, false, []⟩
  else if e.option_down = false then ⟨TapDecision.passEvent, false, []⟩
  else if e.keycode = KEYCODE_R then
    (if e.event_type = CGEventType.keyDown ∧ e.is_repeat = false then
      ⟨TapDecision.suppressEvent, false, [HandlerAction.pushToTalkDown]⟩
    else if e.event_type = CGEventType.keyUp then
      ⟨TapDecision.suppressEvent, false, [HandlerAction.pushToTalkUp]⟩
    else ⟨TapDecision.suppressEvent, false, []⟩)
  else if e.keycode = KEYCODE_T then
    (if e.event_type = CGEventType.keyDown ∧ e.is_repeat = false then
      ⟨TapDecision.suppressEvent, false, [HandlerAction.toggle]⟩
    else ⟨TapDecision.suppressEvent, false, []⟩)
  else ⟨TapDecision.passEvent, false, []⟩

end Speak

namespace Speak

/-! Interleaving semantics for the race between one _audio_callback
delivery and one stop_recording call (speak.py lines 244-250 and
271-291).  Each atomic step is either a plain read/write outside the
lock or one whole critical section of audio_lock; this mirrors the
source exactly: the callback reads is_recording OUTSIDE the lock
(line 248) and then appends under the lock (lines 249-250), while
stop_recording checks and flips the flag outside the lock (lines
273-276) and concatenates-and-clears under the lock (lines 284-288). -/

/-- Shared and per-thread state of the two-thread race.
cb_pc: 0 = flag read pending, 1 = locked append pending, 2 = done.
stop_pc: 0 = entry flag check pending, 1 = flag flip pending,
2 = locked finalize pending, 3 = done.
cb_saw is the value of is_recording the callback read; clip is the value
stop_recording returned (some none = returned None). -/
structure RaceState where
  is_recording : Bool
  audio_buffer : List Chunk
  cb_saw : Option Bool
  cb_pc : Nat
  stop_pc : Nat
  clip : Option (Option (List Int))
deriving DecidableEq, Repr

/-- Thread identifiers for the race. -/
inductive Tid where
  | cb
  | stopper
deriving DecidableEq, Repr

/-- One atomic step of the chosen thread; a finished thread does nothing. -/
def race_step (chunk : Chunk) (s : RaceState) (t : Tid) : RaceState :=
  match t with
  | Tid.cb =>
    match s.cb_pc with
    | 0 => { s with cb_saw := some s.is_recording, cb_pc := 1 }
    | 1 =>
      if s.cb_saw = some true then
        { s with audio_buffer := s.audio_buffer ++ [chunk], cb_pc := 2 }
      else { s with cb_pc := 2 }
    | _ => s
  | Tid.stopper =>
    match s.stop_pc with
    | 0 =>
      if s.is_recording then { s with stop_pc := 1 }
      else { s with clip := some none, stop_pc := 3 }
    | 1 => { s with is_recording := false, stop_pc := 2 }
    | 2 =>
      if s.audio_buffer = [] then { s with clip := some none, stop_pc := 3 }
      else
        { s with
          clip := some (some s.audio_buffer.flatten)
          audio_buffer := []
          stop_pc := 3 }
    | _ => s

/-- Run a schedule (a list of thread choices) from a state. -/
def race_run (chunk : Chunk) (s : RaceState) (sched : List Tid) : RaceState :=
  sched.foldl (race_step chunk) s

/-- Race start state: recording in progress with the chunks of buf
already delivered, both threads at their entry points. -/
def race_init (buf : List Chunk) : RaceState :=
  { is_recording := true
    audio_buffer := buf
    cb_saw := none
    cb_pc := 0
    stop_pc := 0
    clip := none }

end Speak

namespace Speak

/-! Embedding of the model-readiness flag (threading.Event model_loaded,
speak.py line 214) and the operations the program performs on it. -/

/-- The threading.Event operations. -/
inductive EvOp where
  | set
  | clear
  | is_set
  | wait
deriving DecidableEq, Repr

/-- Effect of one Event operation on the flag. -/
def eventApply (b : Bool) (op : EvOp) : Bool :=
  match op with
  | EvOp.set => true
  | EvOp.clear => false
  | EvOp.is_set => b
  | EvOp.wait => b

/-- The flag value after running a list of operations from the initial
(unset) state. -/
def flagRun (ops : List EvOp) : Bool :=
  ops.foldl eventApply false

/-- Number of false-to-true transitions of the flag along a run starting
from the given value. -/
def riseFrom (b : Bool) : List EvOp → Nat
  | [] => 0
  | op :: rest =>
    (if b = false ∧ eventApply b op = true then 1 else 0) +
      riseFrom (eventApply b op) rest

/-- Number of false-to-true transitions along a full run of ops. -/
def riseCount (ops : List EvOp) : Nat := riseFrom false ops

/-- The Event operations performed by _load_model (speak.py line 242):
a single set, and nothing else, ever. -/
def load_model_ops : List EvOp := [EvOp.set]

/-- The Event operations performed by one transcribe call (speak.py
lines 295-297): an is_set check, then a wait when the flag was unset. -/
def transcribe_event_ops (loaded : Bool) : List EvOp :=
  if loaded then [EvOp.is_set] else [EvOp.is_set, EvOp.wait]

/-- The Event operations performed by run before accepting input
(speak.py lines 378-380): same shape as transcribe. -/
def run_wait_ops (loaded : Bool) : List EvOp :=
  if loaded then [EvOp.is_set] else [EvOp.is_set, EvOp.wait]

/-- The actions of one transcribe call at the blocking granularity. -/
inductive TAct where
  | wait_ready
  | infer
deriving DecidableEq, Repr

/-- transcribe (speak.py lines 293-305): when the flag is unset at entry
the call blocks on wait before invoking the model; otherwise it invokes
the model directly. -/
def transcribe_acts (loaded : Bool) : List TAct :=
  if loaded then [TAct.infer] else [TAct.wait_ready, TAct.infer]

end Speak

namespace Speak

/-! Embedding of the text post-processing and injection path
(speak.py lines 306-316 and 328-331). -/

/-- The whitespace characters stripped by Python str.strip, i.e. the
code points CPython treats as whitespace (Py_UNICODE_ISSPACE): the ASCII
controls 09-0D and 1C-1F, the space 20, next-line 85, no-break space A0,
Ogham space mark 1680, the space separators 2000-200A, the line and
paragraph separators 2028 and 2029, narrow no-break space 202F, medium
mathematical space 205F, and ideographic space 3000. -/
def isPySpace (c : Char) : Bool :=
  (0x09 ≤ c.val ∧ c.val ≤ 0x0d) ∨ (0x1c ≤ c.val ∧ c.val ≤ 0x1f) ∨
  c.val = 0x20 ∨ c.val = 0x85 ∨ c.val = 0xa0 ∨ c.val = 0x1680 ∨
  (0x2000 ≤ c.val ∧ c.val ≤ 0x200a) ∨ c.val = 0x2028 ∨ c.val = 0x2029 ∨
  c.val = 0x202f ∨ c.val = 0x205f ∨ c.val = 0x3000

/-- Python str.strip: drop leading and trailing whitespace. -/
def py_strip (l : List Char) : List Char :=
  (((l.dropWhile isPySpace).reverse.dropWhile isPySpace)).reverse

/-- The text transcribe returns for raw model output raw:
result.get with default plus .strip (speak.py line 306). -/
def transcribe_text (raw : List Char) : List Char := py_strip raw

/-- The observable actions of type_text and the worker. -/
inductive WAct where
  | play_done
  | sleep_delay
  | type_text (t : List Char)
deriving DecidableEq, Repr

/-- type_text (speak.py lines 310-316): return on empty text, else play
the done cue, sleep briefly, then inject the text once. -/
def type_text_acts (t : List Char) : List WAct :=
  if t = [] then []
  else [WAct.play_done, WAct.sleep_delay, WAct.type_text t]

/-- The _transcribe_and_type worker (speak.py lines 328-331): transcribe,
then call type_text only when the stripped text is non-empty. -/
def worker_acts (raw : List Char) : List WAct :=
  let text := transcribe_text raw
  if text = [] then [] else type_text_acts text

end Speak

namespace Speak

/-! Concrete daemon states used to instantiate the theorems below. -/

/-- A live push-to-talk session: recording, toggle flag clear, chord held. -/
def ptt_live_state : SpeakDaemon :=
  { is_recording := true
    audio_buffer := [[5]]
    stream_open := true
    toggle_mode_active := false
    push_to_talk_held := true
    cues := [Cue.start]
    submissions := [] }

/-- A live toggle session: recording with the toggle flag set. -/
def toggle_live_state : SpeakDaemon :=
  { is_recording := true
    audio_buffer := [[7]]
    stream_open := true
    toggle_mode_active := true
    push_to_talk_held := false
    cues := [Cue.start]
    submissions := [] }

/-- A recording whose buffer holds three samples, far below the cut-off. -/
def short_clip_state : SpeakDaemon :=
  { is_recording := true
    audio_buffer := [[1, 2, 3]]
    stream_open := true
    toggle_mode_active := false
    push_to_talk_held := false
    cues := []
    submissions := [] }

/-- A recording whose buffer holds exactly MIN_RECORDING_SAMPLES samples. -/
def long_clip_state : SpeakDaemon :=
  { is_recording := true
    audio_buffer := [List.replicate 4800 (0 : Int)]
    stream_open := true
    toggle_mode_active := true
    push_to_talk_held := false
    cues := []
    submissions := [] }

/-- An idle state in which the push-to-talk chord is still marked held. -/
def held_idle_state : SpeakDaemon :=
  { is_recording := true
    audio_buffer := []
    stream_open := true
    toggle_mode_active := false
    push_to_talk_held := true
    cues := []
    submissions := [] }

end Speak

namespace Speak

/-! Helper lemmas shared by the claim theorems. -/

theorem stop_recording_fst_submissions (s : SpeakDaemon) :
    (stop_recording s).1.submissions = s.submissions := by
  unfold stop_recording
  split
  · dsimp only
    split <;> rfl
  · rfl

theorem foldl_eventApply_true (l : List EvOp) (h : EvOp.clear ∉ l) :
    l.foldl eventApply true = true := by
  induction l with
  | nil => rfl
  | cons op rest ih =>
    have hop : op ≠ EvOp.clear := fun he => h (he ▸ List.mem_cons_self op rest)
    have h1 : eventApply true op = true := by
      cases op <;> first | rfl | exact absurd rfl hop
    rw [List.foldl_cons, h1]
    exact ih fun hm => h (List.mem_cons_of_mem op hm)

theorem riseFrom_true_eq_zero (l : List EvOp) (h : EvOp.clear ∉ l) :
    riseFrom true l = 0 := by
  induction l with
  | nil => rfl
  | cons op rest ih =>
    have hop : op ≠ EvOp.clear := fun he => h (he ▸ List.mem_cons_self op rest)
    have h1 : eventApply true op = true := by
      cases op <;> first | rfl | exact absurd rfl hop
    have h2 : EvOp.clear ∉ rest := fun hm => h (List.mem_cons_of_mem op hm)
    simp [riseFrom, h1, ih h2]

theorem riseFrom_false_eq (l : List EvOp) (h : EvOp.clear ∉ l) :
    riseFrom false l = if EvOp.set ∈ l then 1 else 0 := by
  induction l with
  | nil => rfl
  | cons op rest ih =>
    have h2 : EvOp.clear ∉ rest := fun hm => h (List.mem_cons_of_mem op hm)
    cases op with
    | set => simp [riseFrom, eventApply, riseFrom_true_eq_zero rest h2]
    | clear => exact absurd (List.mem_cons_self _ _) h
    | is_set => simp [riseFrom, eventApply, ih h2]
    | wait => simp [riseFrom, eventApply, ih h2]

theorem dropWhile_eq_nil_iff_all (p : Char → Bool) (l : List Char) :
    l.dropWhile p = [] ↔ ∀ x ∈ l, p x = true := by
  induction l with
  | nil => simp [List.dropWhile]
  | cons a l ih =>
    by_cases ha : p a = true
    · simp [List.dropWhile, ha, ih]
    · simp [List.dropWhile, ha]

theorem mem_takeWhile_pred (p : Char → Bool) (l : List Char) (x : Char)
    (h : x ∈ l.takeWhile p) : p x = true := by
  induction l with
  | nil => simp [List.takeWhile] at h
  | cons a l ih =>
    by_cases ha : p a = true
    · rw [List.takeWhile_cons_of_pos ha] at h
      rcases List.mem_cons.1 h with h1 | h1
      · exact h1 ▸ ha
      · exact ih h1
    · rw [List.takeWhile_cons_of_neg ha] at h
      simp at h

theorem py_strip_eq_nil_iff (l : List Char) :
    py_strip l = [] ↔ ∀ c ∈ l, isPySpace c = true := by
  unfold py_strip
  rw [List.reverse_eq_nil_iff, dropWhile_eq_nil_iff_all]
  constructor
  · intro h c hc
    have hsplit := List.takeWhile_append_dropWhile (p := isPySpace) (l := l)
    rw [← hsplit] at hc
    rcases List.mem_append.1 hc with h1 | h1
    · exact mem_takeWhile_pred isPySpace l c h1
    · exact h c (List.mem_reverse.2 h1)
  · intro h x hx
    exact h x (List.dropWhile_subset isPySpace (List.mem_reverse.1 hx))

end Speak

namespace Speak

/-- C1 counterexample: starting from the initial state, a push-to-talk
press enters Recording(PushToTalk); a toggle press there does NOT leave
the state Recording(PushToTalk) but moves it to Recording(Toggle), and
the subsequent push-to-talk release neither ends the session (the daemon
is still recording) nor hands any clip to the pipeline. -/
theorem c1_counterexample :
    abstractState (handle_push_to_talk_down initDaemon) =
      RecState.recording Mode.pushToTalk ∧
    abstractState (handle_toggle (handle_push_to_talk_down initDaemon)) =
      RecState.recording Mode.toggle ∧
    ¬ abstractState (handle_toggle (handle_push_to_talk_down initDaemon)) =
      RecState.recording Mode.pushToTalk ∧
    (handle_push_to_talk_up
        (handle_toggle (handle_push_to_talk_down initDaemon))).is_recording = true ∧
    (handle_push_to_talk_up
        (handle_toggle (handle_push_to_talk_down initDaemon))).submissions = [] := by
  decide

/-- C1 (amended): while a push-to-talk session is active, a toggle press
takes over the session: it sets the toggle flag (leaving the flag, the
buffer and the submissions otherwise untouched, since start_recording
returns early when already recording), so the state becomes
Recording(Toggle); the subsequent push-to-talk release only clears the
held flag — it does not end the session and submits nothing. -/
theorem c1_toggle_takes_over (s : SpeakDaemon)
    (hrec : s.is_recording = true) (htog : s.toggle_mode_active = false) :
    handle_toggle s = { s with toggle_mode_active := true } ∧
    abstractState (handle_toggle s) = RecState.recording Mode.toggle ∧
    (s.push_to_talk_held = true →
      handle_push_to_talk_up (handle_toggle s) =
        { s with toggle_mode_active := true, push_to_talk_held := false } ∧
      (handle_push_to_talk_up (handle_toggle s)).submissions = s.submissions ∧
      (handle_push_to_talk_up (handle_toggle s)).is_recording = true) := by
  have h1 : handle_toggle s = { s with toggle_mode_active := true } := by
    simp [handle_toggle, htog, start_recording, hrec]
  refine ⟨h1, ?_, ?_⟩
  · rw [h1]; simp [abstractState, hrec]
  · intro hheld
    rw [h1]
    refine ⟨?_, ?_, ?_⟩ <;> simp [handle_push_to_talk_up, hheld, hrec]

/-- C1 witness: the amended statement instantiated at a concrete live
push-to-talk session. -/
theorem c1_toggle_takes_over_witness :
    handle_toggle ptt_live_state =
      { ptt_live_state with toggle_mode_active := true } ∧
    abstractState (handle_toggle ptt_live_state) =
      RecState.recording Mode.toggle ∧
    (ptt_live_state.push_to_talk_held = true →
      handle_push_to_talk_up (handle_toggle ptt_live_state) =
        { ptt_live_state with
          toggle_mode_active := true
          push_to_talk_held := false } ∧
      (handle_push_to_talk_up (handle_toggle ptt_live_state)).submissions =
        ptt_live_state.submissions ∧
      (handle_push_to_talk_up (handle_toggle ptt_live_state)).is_recording =
        true) :=
  c1_toggle_takes_over ptt_live_state rfl rfl

/-- C2: in the race semantics translated from the source lock structure,
there is a schedule in which the audio callback has read is_recording as
true (cb_saw) but has not yet performed its locked append (cb_pc = 1)
while stop_recording has already run to completion, its locked finalize
included (stop_pc = 3, clip returned).  The finalize critical section
therefore executes between the flag check and the append: no single lock
covers both, contradicting the claim. -/
theorem c2_flag_check_outside_lock :
    (race_run [3] (race_init [[1, 2]])
        [Tid.cb, Tid.stopper, Tid.stopper, Tid.stopper]).cb_saw = some true ∧
    (race_run [3] (race_init [[1, 2]])
        [Tid.cb, Tid.stopper, Tid.stopper, Tid.stopper]).cb_pc = 1 ∧
    (race_run [3] (race_init [[1, 2]])
        [Tid.cb, Tid.stopper, Tid.stopper, Tid.stopper]).stop_pc = 3 ∧
    (race_run [3] (race_init [[1, 2]])
        [Tid.cb, Tid.stopper, Tid.stopper, Tid.stopper]).clip =
      some (some [1, 2]) := by
  decide

/-- C3: completing that schedule loses a frame: the callback read the
flag as true (the chunk [3] was delivered while recording), yet the clip
stop_recording returned is [1, 2] — not [1, 2, 3] as the claim requires —
and the lost chunk is stranded in the buffer after the session ended. -/
theorem c3_frame_lost_interleaving :
    (race_run [3] (race_init [[1, 2]])
        [Tid.cb, Tid.stopper, Tid.stopper, Tid.stopper, Tid.cb]).cb_saw =
      some true ∧
    (race_run [3] (race_init [[1, 2]])
        [Tid.cb, Tid.stopper, Tid.stopper, Tid.stopper, Tid.cb]).clip =
      some (some [1, 2]) ∧
    (race_run [3] (race_init [[1, 2]])
        [Tid.cb, Tid.stopper, Tid.stopper, Tid.stopper, Tid.cb]).audio_buffer =
      [[3]] ∧
    ¬ (race_run [3] (race_init [[1, 2]])
        [Tid.cb, Tid.stopper, Tid.stopper, Tid.stopper, Tid.cb]).clip =
      some (some [1, 2, 3]) := by
  decide

/-- C4 counterexample: a disabled-by-user-input event (revoked
permission / user input) is passed through with NO re-enable call,
refuting the claim that every runtime-disable event triggers an
immediate re-enable. -/
theorem c4_counterexample :
    event_tap_callback true true
        { event_type := CGEventType.tapDisabledByUserInput, keycode := 0,
          option_down := false, is_repeat := false } =
      { decision := TapDecision.passEvent, reenabled := false,
        dispatched := [] } ∧
    ¬ (event_tap_callback true true
        { event_type := CGEventType.tapDisabledByUserInput, keycode := 0,
          option_down := false, is_repeat := false }).reenabled = true := by
  decide

/-- C4 (amended): only a disabled-by-timeout event makes the callback
re-enable the tap (when the tap object exists) and pass the event
through; a disabled-by-user-input event is passed through unchanged
without any re-enable. -/
theorem c4_reenable_only_on_timeout (t : Bool) (e : CGEvent) :
    (e.event_type = CGEventType.tapDisabledByTimeout →
      event_tap_callback true t e =
        { decision := TapDecision.passEvent, reenabled := t,
          dispatched := [] }) ∧
    (e.event_type = CGEventType.tapDisabledByUserInput →
      event_tap_callback true t e =
        { decision := TapDecision.passEvent, reenabled := false,
          dispatched := [] }) := by
  obtain ⟨ty, kc, opt, rep⟩ := e
  constructor
  · intro h
    subst h
    simp [event_tap_callback]
  · intro h
    subst h
    simp [event_tap_callback]

/-- C4 witness: the amended statement at concrete disable events with the
tap installed. -/
theorem c4_reenable_only_on_timeout_witness :
    event_tap_callback true true
        { event_type := CGEventType.tapDisabledByTimeout, keycode := 0,
          option_down := false, is_repeat := false } =
      { decision := TapDecision.passEvent, reenabled := true,
        dispatched := [] } :=
  (c4_reenable_only_on_timeout true
      { event_type := CGEventType.tapDisabledByTimeout, keycode := 0,
        option_down := false, is_repeat := false }).1 rfl

end Speak

namespace Speak

/-- C5: whenever stop_recording yields no clip (empty buffer or not
recording) or a clip shorter than MIN_RECORDING_SAMPLES, process_recording
spawns no transcription worker: the submission list is unchanged. -/
theorem c5_short_clip_not_submitted (s : SpeakDaemon)
    (h : (stop_recording s).2 = none ∨
      ∃ a, (stop_recording s).2 = some a ∧
        a.length < MIN_RECORDING_SAMPLES) :
    (process_recording s).submissions = s.submissions := by
  rcases h with h | ⟨a, ha, hlen⟩
  · simp only [process_recording]
    rw [h]
    exact stop_recording_fst_submissions s
  · simp only [process_recording]
    rw [ha]
    simp [hlen, stop_recording_fst_submissions]

/-- C5 witness: a 3-sample recording (far below the 4800-sample cut-off)
is dropped without a submission. -/
theorem c5_short_clip_not_submitted_witness :
    (process_recording short_clip_state).submissions =
      short_clip_state.submissions :=
  c5_short_clip_not_submitted short_clip_state
    (Or.inr ⟨[1, 2, 3], by decide, by decide⟩)

/-- C6: an auto-repeat key-down of a chord dispatches no handler action;
the outcome for a key-up never depends on the repeat flag; a key-up of
the push-to-talk chord (Option held, daemon up) always dispatches the
release handler; and the push-to-talk down handler is idempotent while
the chord is already held, so begin capture can never re-trigger. -/
theorem c6_repeat_press_ignored (d t : Bool) (e : CGEvent) :
    (e.event_type = CGEventType.keyDown → e.is_repeat = true →
      (event_tap_callback d t e).dispatched = []) ∧
    (e.event_type = CGEventType.keyUp →
      event_tap_callback d t { e with is_repeat := true } =
        event_tap_callback d t { e with is_repeat := false }) ∧
    (d = true → e.event_type = CGEventType.keyUp → e.option_down = true →
      e.keycode = KEYCODE_R →
      (event_tap_callback d t e).dispatched = [HandlerAction.pushToTalkUp]) ∧
    (∀ s : SpeakDaemon, s.push_to_talk_held = true →
      handle_push_to_talk_down s = s) := by
  obtain ⟨ty, kc, opt, rep⟩ := e
  refine ⟨?_, ?_, ?_, ?_⟩
  · intro hty hrep
    subst hty
    subst hrep
    cases d
    · simp [event_tap_callback]
    · cases opt
      · simp [event_tap_callback]
      · by_cases hkc : kc = KEYCODE_R
        · simp [event_tap_callback, hkc]
        · by_cases hkc2 : kc = KEYCODE_T
          · simp [event_tap_callback, hkc, hkc2]
          · simp [event_tap_callback, hkc, hkc2]
  · intro hty
    subst hty
    simp [event_tap_callback]
  · intro hd hty hopt hkc
    subst hd
    subst hty
    subst hopt
    subst hkc
    simp [event_tap_callback]
  · intro s hs
    simp [handle_push_to_talk_down, hs]

/-- C6 witness: a repeat key-down of the push-to-talk chord dispatches
nothing; the toggle chord key-up outcome is identical for both repeat
flags; a push-to-talk key-up dispatches the release handler; and the
down handler leaves a held state untouched. -/
theorem c6_repeat_press_ignored_witness :
    (event_tap_callback true true
        { event_type := CGEventType.keyDown, keycode := 15,
          option_down := true, is_repeat := true }).dispatched = [] ∧
    event_tap_callback true true
        { event_type := CGEventType.keyUp, keycode := 17,
          option_down := true, is_repeat := true } =
      event_tap_callback true true
        { event_type := CGEventType.keyUp, keycode := 17,
          option_down := true, is_repeat := false } ∧
    (event_tap_callback true true
        { event_type := CGEventType.keyUp, keycode := 15,
          option_down := true, is_repeat := true }).dispatched =
      [HandlerAction.pushToTalkUp] ∧
    handle_push_to_talk_down held_idle_state = held_idle_state :=
  ⟨(c6_repeat_press_ignored true true
      { event_type := CGEventType.keyDown, keycode := 15,
        option_down := true, is_repeat := true }).1 rfl rfl,
   (c6_repeat_press_ignored true true
      { event_type := CGEventType.keyUp, keycode := 17,
        option_down := true, is_repeat := false }).2.1 rfl,
   (c6_repeat_press_ignored true true
      { event_type := CGEventType.keyUp, keycode := 15,
        option_down := true, is_repeat := true }).2.2.1 rfl rfl rfl rfl,
   (c6_repeat_press_ignored true true
      { event_type := CGEventType.keyUp, keycode := 15,
        option_down := true, is_repeat := true }).2.2.2 held_idle_state rfl⟩

/-- One push-to-talk event in a live toggle session changes neither the
recording flag nor the toggle flag nor the buffer nor the submissions. -/
theorem applyPtt_toggle_invariant (s : SpeakDaemon) (e : PttEvent)
    (hrec : s.is_recording = true) (htog : s.toggle_mode_active = true) :
    (applyPtt s e).is_recording = true ∧
    (applyPtt s e).toggle_mode_active = true ∧
    (applyPtt s e).audio_buffer = s.audio_buffer ∧
    (applyPtt s e).submissions = s.submissions := by
  cases e with
  | down => simp [applyPtt, handle_push_to_talk_down, htog, hrec]
  | up =>
    by_cases hh : s.push_to_talk_held
    · simp [applyPtt, handle_push_to_talk_up, hh, hrec, htog]
    · simp [applyPtt, handle_push_to_talk_up, hh, hrec, htog]

/-- C7: while the daemon is in Recording(Toggle), any sequence of
push-to-talk presses and releases leaves the recording flag, the toggle
flag, the audio buffer, the submissions and the abstract state unchanged:
no separate clip is ever finalized or submitted. -/
theorem c7_toggle_owns_session (s : SpeakDaemon) (es : List PttEvent)
    (hrec : s.is_recording = true) (htog : s.toggle_mode_active = true) :
    (applyPttList s es).is_recording = true ∧
    (applyPttList s es).toggle_mode_active = true ∧
    (applyPttList s es).audio_buffer = s.audio_buffer ∧
    (applyPttList s es).submissions = s.submissions ∧
    abstractState (applyPttList s es) = abstractState s := by
  induction es generalizing s with
  | nil => simp [applyPttList, hrec, htog]
  | cons e es ih =>
    have hstep := applyPtt_toggle_invariant s e hrec htog
    have hlist : applyPttList s (e :: es) = applyPttList (applyPtt s e) es := by
      simp [applyPttList]
    have hrest := ih (applyPtt s e) hstep.1 hstep.2.1
    rw [hlist]
    refine ⟨hrest.1, hrest.2.1, hrest.2.2.1.trans hstep.2.2.1,
      hrest.2.2.2.1.trans hstep.2.2.2, ?_⟩
    have habs : ∀ u : SpeakDaemon, u.is_recording = true →
        u.toggle_mode_active = true →
        abstractState u = RecState.recording Mode.toggle := by
      intro u h1 h2
      simp [abstractState, h1, h2]
    rw [habs (applyPttList (applyPtt s e) es) hrest.1 hrest.2.1,
      habs s hrec htog]

/-- C7 witness: a down-up-up-down push-to-talk flurry in a live toggle
session leaves everything unchanged. -/
theorem c7_toggle_owns_session_witness :
    (applyPttList toggle_live_state
        [PttEvent.down, PttEvent.up, PttEvent.up, PttEvent.down]).is_recording =
      true ∧
    (applyPttList toggle_live_state
        [PttEvent.down, PttEvent.up, PttEvent.up,
          PttEvent.down]).toggle_mode_active = true ∧
    (applyPttList toggle_live_state
        [PttEvent.down, PttEvent.up, PttEvent.up,
          PttEvent.down]).audio_buffer = toggle_live_state.audio_buffer ∧
    (applyPttList toggle_live_state
        [PttEvent.down, PttEvent.up, PttEvent.up,
          PttEvent.down]).submissions = toggle_live_state.submissions ∧
    abstractState
        (applyPttList toggle_live_state
          [PttEvent.down, PttEvent.up, PttEvent.up, PttEvent.down]) =
      abstractState toggle_live_state :=
  c7_toggle_owns_session toggle_live_state
    [PttEvent.down, PttEvent.up, PttEvent.up, PttEvent.down] rfl rfl

/-- C8: the model-readiness flag is monotone — once true, it stays true
along any continuation free of clear operations — and rises false-to-true
exactly once in any run containing a set and no clear; the program
performs a single set (in the loader) and no clear anywhere; and a
transcribe call entered with the flag unset blocks on wait before the
model invocation, while one entered with the flag set invokes directly. -/
theorem c8_model_flag_monotone :
    (∀ pre post : List EvOp, EvOp.clear ∉ post → flagRun pre = true →
      flagRun (pre ++ post) = true) ∧
    (∀ ops : List EvOp, EvOp.clear ∉ ops →
      riseCount ops = if EvOp.set ∈ ops then 1 else 0) ∧
    EvOp.clear ∉ load_model_ops ∧
    load_model_ops.count EvOp.set = 1 ∧
    (∀ b, EvOp.clear ∉ transcribe_event_ops b ∧
      EvOp.set ∉ transcribe_event_ops b) ∧
    (∀ b, EvOp.clear ∉ run_wait_ops b ∧ EvOp.set ∉ run_wait_ops b) ∧
    transcribe_acts false = [TAct.wait_ready, TAct.infer] ∧
    transcribe_acts true = [TAct.infer] := by
  refine ⟨?_, ?_, ?_, ?_, ?_, ?_, rfl, rfl⟩
  · intro pre post hpost hpre
    unfold flagRun at hpre ⊢
    rw [List.foldl_append, hpre]
    exact foldl_eventApply_true post hpost
  · intro ops hops
    exact riseFrom_false_eq ops hops
  · decide
  · decide
  · intro b
    cases b <;> decide
  · intro b
    cases b <;> decide

/-- C8 witness: the monotone and exactly-once clauses at concrete runs. -/
theorem c8_model_flag_monotone_witness :
    flagRun ([EvOp.set] ++ [EvOp.is_set, EvOp.wait]) = true ∧
    riseCount [EvOp.is_set, EvOp.set, EvOp.wait] =
      if EvOp.set ∈ [EvOp.is_set, EvOp.set, EvOp.wait] then 1 else 0 :=
  ⟨c8_model_flag_monotone.1 [EvOp.set] [EvOp.is_set, EvOp.wait]
      (by decide) (by decide),
   c8_model_flag_monotone.2.1 [EvOp.is_set, EvOp.set, EvOp.wait] (by decide)⟩

/-- C9: a raw transcription result that is empty or whitespace-only
produces no worker action at all — in particular the text injector is
never called; a result containing any non-whitespace character produces
exactly the sequence completion-cue, pre-injection delay, one injection
of the stripped text. -/
theorem c9_empty_text_dropped (raw : List Char) :
    ((∀ c ∈ raw, isPySpace c = true) → worker_acts raw = []) ∧
    ((∃ c ∈ raw, isPySpace c = false) →
      worker_acts raw =
        [WAct.play_done, WAct.sleep_delay, WAct.type_text (py_strip raw)] ∧
      ¬ py_strip raw = []) := by
  constructor
  · intro h
    have hnil : py_strip raw = [] := (py_strip_eq_nil_iff raw).2 h
    simp [worker_acts, transcribe_text, hnil]
  · rintro ⟨c, hc, hcf⟩
    have hne : ¬ py_strip raw = [] := by
      intro he
      have hall := (py_strip_eq_nil_iff raw).1 he c hc
      rw [hall] at hcf
      exact Bool.noConfusion hcf
    exact ⟨by simp [worker_acts, transcribe_text, type_text_acts, hne], hne⟩

/-- C9 witness: a result of space, tab and no-break space only is
dropped; a result with leading no-break space and the text hi is
injected once as the stripped text, preceded by the done cue and the
delay. -/
theorem c9_empty_text_dropped_witness :
    worker_acts [' ', '\t', '\u00a0'] = [] ∧
    worker_acts ['\u00a0', 'h', 'i'] =
      [WAct.play_done, WAct.sleep_delay,
        WAct.type_text (py_strip ['\u00a0', 'h', 'i'])] :=
  ⟨(c9_empty_text_dropped [' ', '\t', '\u00a0']).1 (by decide),
   ((c9_empty_text_dropped ['\u00a0', 'h', 'i']).2 (by decide)).1⟩

/-- C10: the minimum-duration filter is a strict comparison: every clip
of MIN_RECORDING_SAMPLES samples or more is submitted to the pipeline
(appended to the submissions), so an exactly-4800-sample clip is kept. -/
theorem c10_threshold_strict (s : SpeakDaemon) (a : List Int)
    (ha : (stop_recording s).2 = some a)
    (hlen : MIN_RECORDING_SAMPLES ≤ a.length) :
    (process_recording s).submissions = s.submissions ++ [a] := by
  have hnl : ¬ a.length < MIN_RECORDING_SAMPLES := Nat.not_lt.2 hlen
  simp only [process_recording]
  rw [ha]
  simp [hnl, stop_recording_fst_submissions]

/-- When recording with a non-empty buffer, stop_recording returns the
flattened buffer. -/
theorem stop_recording_snd (s : SpeakDaemon) (hrec : s.is_recording = true)
    (hbuf : ¬ s.audio_buffer = []) :
    (stop_recording s).2 = some s.audio_buffer.flatten := by
  unfold stop_recording
  simp [hrec, hbuf]

/-- C10 witness: a clip of exactly 4800 samples (300 ms at 16 kHz) is
submitted, not discarded. -/
theorem c10_threshold_strict_witness :
    (process_recording long_clip_state).submissions =
      long_clip_state.submissions ++ [List.replicate 4800 (0 : Int)] :=
  c10_threshold_strict long_clip_state (List.replicate 4800 (0 : Int))
    (by
      rw [stop_recording_snd long_clip_state rfl (fun h => List.noConfusion h)]
      rw [show long_clip_state.audio_buffer =
        [List.replicate 4800 (0 : Int)] from rfl]
      rw [List.flatten_cons, List.flatten_nil, List.append_nil])
    (by
      rw [List.length_replicate]
      exact Nat.le_refl 4800)

end Speak
